import Mathlib

/-!
# Verification of the SoundCloud playlist extraction state machine

Shallow embedding of `src/playlist/plugins/SoundCloudPlaylistPlugin.cxx`:
the YAJL callback handlers (`handle_integer`, `handle_string`,
`handle_mapkey`, `handle_start_map`, `handle_end_map`) acting on the
`SoundCloudJsonData` parse context, the event-folding loop they are driven
by, and the URI dispatch of `soundcloud_open_uri`.

The external JSON tokenizer is modelled by a list of `Event`s delivered in
document order; each handler is a pure state transformer on
`SoundCloudJsonData` (every C++ handler returns 1 unconditionally, so no
failure path is needed).  C++ `long`/`int` fields are modelled as `Int`.
-/

namespace SoundCloud

/-- `SoundCloudJsonData::Key` from the source. -/
inductive Key where
  | DURATION
  | TITLE
  | STREAM_URL
  | OTHER
deriving DecidableEq

/-- A finalized track record, as built in `handle_end_map`: the URL passed
to `DetachedSong`, the duration given to `TagBuilder::SetDuration`, and the
title item which is added only when the accumulated title is non-empty. -/
structure Song where
  url : String
  durationMs : Int
  title : Option String
deriving DecidableEq

/-- The parse context `struct SoundCloudJsonData`.  In the C++ source,
`key` and `duration` carry no initializer (they are indeterminate until
first written); `got_url = 0` is initialized, and the strings and the song
list start empty. -/
structure SoundCloudJsonData where
  key : Key
  stream_url : String
  duration : Int
  title : String
  got_url : Int
  songs : List Song
deriving DecidableEq

/-- The tokenizer events wired up in `parse_callbacks`: integer scalar,
string scalar, map key, map start, map end.  (The array callbacks are
`nullptr` in the source, so arrays produce no events.) -/
inductive Event where
  | integer (v : Int)
  | str (s : String)
  | mapKey (k : String)
  | startMap
  | endMap
deriving DecidableEq

/-- The fixed key table `key_str` from the source, in order. -/
def key_str : List String := ["duration", "title", "stream_url"]

/-- `StringStartsWith(haystack, needle)` from `util/StringCompare.hxx`:
does `haystack` start with `needle`?  Modelled on the character list. -/
def stringStartsWith (haystack needle : String) : Bool :=
  needle.data.isPrefixOf haystack.data

/-- The classification loop in `handle_mapkey`: it scans `key_str` for the
first entry `e` with `StringStartsWith(e, observedKey)` — i.e. the observed
key is a prefix of the table entry — and converts the index reached into a
`Key` (falling off the table gives `OTHER`). -/
def classify (k : String) : Key :=
  if stringStartsWith "duration" k then .DURATION
  else if stringStartsWith "title" k then .TITLE
  else if stringStartsWith "stream_url" k then .STREAM_URL
  else .OTHER

/-- `handle_integer`: only a `DURATION`-classified integer is stored. -/
def handle_integer (v : Int) (d : SoundCloudJsonData) : SoundCloudJsonData :=
  match d.key with
  | .DURATION => { d with duration := v }
  | _ => d

/-- `handle_string`: a `TITLE`-classified string is stored as the title; a
`STREAM_URL`-classified string is stored as the stream URL and sets
`got_url = 1`; anything else is ignored. -/
def handle_string (s : String) (d : SoundCloudJsonData) : SoundCloudJsonData :=
  match d.key with
  | .TITLE => { d with title := s }
  | .STREAM_URL => { d with stream_url := s, got_url := 1 }
  | _ => d

/-- `handle_mapkey`: set `key` from the classification table; nothing else
is touched. -/
def handle_mapkey (k : String) (d : SoundCloudJsonData) : SoundCloudJsonData :=
  { d with key := classify k }

/-- `handle_start_map`: `if (got_url > 0) got_url++`. -/
def handle_start_map (d : SoundCloudJsonData) : SoundCloudJsonData :=
  if d.got_url > 0 then { d with got_url := d.got_url + 1 } else d

/-- The record pushed by `handle_end_map` when it finalizes: URL is
`stream_url + "?client_id=" + apikey`, duration is the accumulated
duration, and the title tag is attached only when non-empty. -/
def finalizedSong (apikey : String) (d : SoundCloudJsonData) : Song :=
  { url := d.stream_url ++ "?client_id=" ++ apikey
    durationMs := d.duration
    title := if d.title.isEmpty then none else some d.title }

/-- `handle_end_map`, with the same branch order as the source: if
`got_url > 1` decrement; else if `got_url == 0` do nothing; otherwise the
track is finished — reset `got_url` to 0 and push the finalized record onto
the front of `songs` (`emplace_front`).  Note the source clears only
`got_url`; `stream_url`, `duration` and `title` keep their values. -/
def handle_end_map (apikey : String) (d : SoundCloudJsonData) : SoundCloudJsonData :=
  if d.got_url > 1 then { d with got_url := d.got_url - 1 }
  else if d.got_url = 0 then d
  else { d with got_url := 0, songs := finalizedSong apikey d :: d.songs }

/-- Dispatch one tokenizer event to its handler (`parse_callbacks`). -/
def step (apikey : String) (d : SoundCloudJsonData) : Event → SoundCloudJsonData
  | .integer v => handle_integer v d
  | .str s => handle_string s d
  | .mapKey k => handle_mapkey k d
  | .startMap => handle_start_map d
  | .endMap => handle_end_map apikey d

/-- Feed a whole event sequence through the handlers in document order
(the tokenizer calling back from `soundcloud_parse_json`). -/
def run (apikey : String) (d : SoundCloudJsonData) (es : List Event) : SoundCloudJsonData :=
  es.foldl (step apikey) d

/-- The parse context as `soundcloud_open_uri` constructs it
(`SoundCloudJsonData data;`).  The C++ leaves `key` and `duration`
default-initialized (indeterminate); they are modelled here as `OTHER` and
`0`, the values the spec assumes. -/
def initData : SoundCloudJsonData :=
  { key := .OTHER, stream_url := "", duration := 0, title := "", got_url := 0, songs := [] }

/-- `soundcloud_resolve`: build the resolver URL from a page URL or path. -/
def soundcloud_resolve (apikey uri : String) : String :=
  let u :=
    if stringStartsWith uri "https://" then uri
    else if stringStartsWith uri "soundcloud.com" then "https://" ++ uri
    else "https://soundcloud.com/" ++ uri
  "https://api.soundcloud.com/resolve.json?url=" ++ u ++ "&client_id=" ++ apikey

/-- `soundcloud_open_uri`, after the asserted scheme prefix
`"soundcloud://"` has been skipped: `rest` is the remainder of the URI.
The five `strncmp` branches that recognize a resource kind are modelled by
prefix tests in source order, producing the request URL; when none matches
(`u == nullptr`) the function logs and returns `nullptr`, modelled as
`none`.  The network fetch and tokenizer are external, so the events they
would deliver are a parameter; they are consumed only when a URL was
built, after which the accumulated song list is reversed and returned. -/
def soundcloud_open_uri (apikey rest : String) (events : List Event) : Option (List Song) :=
  let u : Option String :=
    if stringStartsWith rest "track/" then
      some ("https://api.soundcloud.com/tracks/" ++ rest.drop 6
            ++ ".json?client_id=" ++ apikey)
    else if stringStartsWith rest "playlist/" then
      some ("https://api.soundcloud.com/playlists/" ++ rest.drop 9
            ++ ".json?client_id=" ++ apikey)
    else if stringStartsWith rest "user/" then
      some ("https://api.soundcloud.com/users/" ++ rest.drop 5
            ++ "/tracks.json?client_id=" ++ apikey)
    else if stringStartsWith rest "search/" then
      some ("https://api.soundcloud.com/tracks.json?q=" ++ rest.drop 7
            ++ "&client_id=" ++ apikey)
    else if stringStartsWith rest "url/" then
      some (soundcloud_resolve apikey (rest.drop 4))
    else none
  match u with
  | none => none
  | some _ => some ((run apikey initData events).songs.reverse)

/-! ## Event-sequence vocabulary used by the theorems -/

/-- An event that is inert inside a nested object whose keys all classify
`OTHER`: scalars and `OTHER`-classified map keys; no object boundaries. -/
def inertEvent : Event → Bool
  | .integer _ => true
  | .str _ => true
  | .mapKey k => match classify k with | .OTHER => true | _ => false
  | .startMap => false
  | .endMap => false

/-- An event that can never begin a stream-URL capture: anything except a
map key that the classifier maps to `STREAM_URL`. -/
def nonCapturingEvent : Event → Bool
  | .mapKey k => match classify k with | .STREAM_URL => false | _ => true
  | _ => true

/-- Input description of one well-formed track object. -/
structure TrackIn where
  url : String
  dur : Int
  title : String
deriving DecidableEq

/-- The tokenizer events of one flat track object carrying a duration, a
title and a stream_url field. -/
def trackEvents (t : TrackIn) : List Event :=
  [.startMap, .mapKey "duration", .integer t.dur, .mapKey "title", .str t.title,
   .mapKey "stream_url", .str t.url, .endMap]

/-- The events of a whole document: the track objects in document order. -/
def docEvents (ts : List TrackIn) : List Event :=
  (ts.map trackEvents).flatten

/-- The record the extractor is expected to emit for one track input. -/
def mkSong (apikey : String) (t : TrackIn) : Song :=
  { url := t.url ++ "?client_id=" ++ apikey
    durationMs := t.dur
    title := if t.title.isEmpty then none else some t.title }

/-- Events of a track object whose `stream_url` field is followed by a
nested object: the track opens, accumulates title, duration and the stream
URL, then a key `kNest` introduces a nested object which opens; the nested
object's body is supplied separately. -/
def nestedTrackPre (t : String) (dur : Int) (u kNest : String) : List Event :=
  [.startMap, .mapKey "title", .str t, .mapKey "duration", .integer dur,
   .mapKey "stream_url", .str u, .mapKey kNest, .startMap]

/-- One finalizing track object whose title, duration and stream URL are
all set: used to observe the parse context right after finalization. -/
def c3events : List Event :=
  [.startMap, .mapKey "title", .str "A", .mapKey "duration", .integer 9,
   .mapKey "stream_url", .str "u", .endMap]

/-- A document with two track objects: the first carries a negative
duration, the second carries no duration field at all. -/
def c5events : List Event :=
  [.startMap, .mapKey "duration", .integer (-5), .mapKey "stream_url",
   .str "u1", .endMap,
   .startMap, .mapKey "stream_url", .str "u2", .endMap]

/-! ## Helper lemmas -/

theorem run_append (apikey : String) (d : SoundCloudJsonData) (es fs : List Event) :
    run apikey d (es ++ fs) = run apikey (run apikey d es) fs :=
  List.foldl_append (step apikey) d es fs

theorem classify_duration : classify "duration" = .DURATION := by decide

theorem classify_title : classify "title" = .TITLE := by decide

theorem classify_stream_url : classify "stream_url" = .STREAM_URL := by decide

/-- Running a sequence of inert events from an `OTHER`-classified context
changes nothing at all. -/
theorem inert_run (apikey : String) :
    ∀ (es : List Event) (d : SoundCloudJsonData), d.key = .OTHER →
      es.all inertEvent = true → run apikey d es = d := by
  intro es
  induction es with
  | nil => intro d _ _; rfl
  | cons e es ih =>
      intro d hkey hall
      rw [List.all_cons, Bool.and_eq_true] at hall
      have hstep : step apikey d e = d := by
        cases e with
        | integer v => simp [step, handle_integer, hkey]
        | str s => simp [step, handle_string, hkey]
        | mapKey k =>
            have hk : classify k = Key.OTHER := by
              have := hall.1
              simp only [inertEvent] at this
              cases h : classify k <;> simp [h] at this ⊢
            cases d with
            | mk k0 su du ti gu so =>
                simp [step, handle_mapkey, hk]
                exact hkey.symm
        | startMap => simp [inertEvent] at hall
        | endMap => simp [inertEvent] at hall
      have : run apikey d (e :: es) = run apikey (step apikey d e) es := rfl
      rw [this, hstep]
      exact ih d hkey hall.2

/-- Processing one flat track object from a context with no pending
capture: every field is overwritten, `got_url` returns to 0, and exactly
one finalized record is prepended. -/
theorem track_block (apikey : String) (d : SoundCloudJsonData) (t : TrackIn)
    (h : d.got_url = 0) :
    run apikey d (trackEvents t) =
      { key := .STREAM_URL, stream_url := t.url, duration := t.dur,
        title := t.title, got_url := 0, songs := mkSong apikey t :: d.songs } := by
  simp [run, trackEvents, step, handle_start_map, handle_mapkey, handle_integer,
        handle_string, handle_end_map, classify_duration, classify_title,
        classify_stream_url, h, mkSong, finalizedSong]

/-- Processing a whole document of flat track objects accumulates the
records in reverse document order and leaves no capture pending. -/
theorem doc_run (apikey : String) :
    ∀ (ts : List TrackIn) (d : SoundCloudJsonData), d.got_url = 0 →
      (run apikey d (docEvents ts)).songs
          = (ts.map (mkSong apikey)).reverse ++ d.songs ∧
        (run apikey d (docEvents ts)).got_url = 0 := by
  intro ts
  induction ts with
  | nil => intro d h; exact ⟨rfl, h⟩
  | cons t ts ih =>
      intro d h
      have hsplit : docEvents (t :: ts) = trackEvents t ++ docEvents ts := by
        simp [docEvents]
      rw [hsplit, run_append, track_block apikey d t h]
      obtain ⟨h1, h2⟩ := ih
        { key := .STREAM_URL, stream_url := t.url, duration := t.dur,
          title := t.title, got_url := 0, songs := mkSong apikey t :: d.songs } rfl
      refine ⟨?_, h2⟩
      rw [h1]
      simp

/-! ## Claim theorems -/

/-- C1: for every event sequence forming one track object whose
`stream_url` string field is followed by a nested object (object-start,
inert body, matching object-end) before the track object closes, the
nested object's close event does not finalize anything (the song list is
still empty right after it), and the track's own object-end finalizes
exactly one record carrying the captured stream URL, duration and title. -/
theorem claim_C1_nested_object_single_record (apikey t : String) (dur : Int)
    (u kNest : String) (inner : List Event)
    (hk : classify kNest = Key.OTHER)
    (hin : inner.all inertEvent = true) :
    (run apikey initData
        (nestedTrackPre t dur u kNest ++ inner ++ [Event.endMap])).songs = [] ∧
    (run apikey initData
        (nestedTrackPre t dur u kNest ++ inner ++ [Event.endMap, Event.endMap])).songs
      = [{ url := u ++ "?client_id=" ++ apikey, durationMs := dur,
           title := if t.isEmpty then none else some t }] := by
  have hpre : run apikey initData (nestedTrackPre t dur u kNest) =
      { key := .OTHER, stream_url := u, duration := dur, title := t,
        got_url := 2, songs := [] } := by
    simp [run, nestedTrackPre, step, handle_start_map, handle_mapkey,
          handle_integer, handle_string, classify_duration, classify_title,
          classify_stream_url, hk, initData]
  have hinner : run apikey
      { key := .OTHER, stream_url := u, duration := dur, title := t,
        got_url := 2, songs := [] } inner =
      { key := .OTHER, stream_url := u, duration := dur, title := t,
        got_url := 2, songs := [] } :=
    inert_run apikey inner _ rfl hin
  constructor
  · rw [run_append, run_append, hpre, hinner]
    simp [run, step, handle_end_map]
  · rw [run_append, run_append, hpre, hinner]
    simp [run, step, handle_end_map, finalizedSong]

/-- C1 witness: the spec's own exemplar — a track with an embedded "user"
object between the stream URL and the track's closing brace. -/
theorem claim_C1_witness :
    (run "K" initData
        (nestedTrackPre "A" 7 "u" "user"
          ++ [Event.mapKey "username", Event.str "bob"]
          ++ [Event.endMap])).songs = [] ∧
    (run "K" initData
        (nestedTrackPre "A" 7 "u" "user"
          ++ [Event.mapKey "username", Event.str "bob"]
          ++ [Event.endMap, Event.endMap])).songs
      = [{ url := "u" ++ "?client_id=" ++ "K", durationMs := 7,
           title := if "A".isEmpty then none else some "A" }] :=
  claim_C1_nested_object_single_record "K" "A" 7 "u" "user"
    [Event.mapKey "username", Event.str "bob"] (by decide) (by decide)

/-- C2: a document of N well-formed track objects, each with a
`stream_url` field, accumulates its records by prepending (the internal
list is the reverse of document order) and the single final reversal
returns exactly N records in document order. -/
theorem claim_C2_document_order (apikey : String) (ts : List TrackIn) :
    (run apikey initData (docEvents ts)).songs = (ts.map (mkSong apikey)).reverse ∧
    (run apikey initData (docEvents ts)).songs.reverse = ts.map (mkSong apikey) ∧
    (run apikey initData (docEvents ts)).songs.reverse.length = ts.length := by
  have h1 : (run apikey initData (docEvents ts)).songs
      = (ts.map (mkSong apikey)).reverse := by
    simpa [initData] using (doc_run apikey ts initData rfl).1
  exact ⟨h1, by simp [h1], by simp [h1]⟩

/-- C3 counterexample: after the finalizing object-end of `c3events`,
`got_url` (the capture depth) is indeed back to 0 and a record was pushed,
but the pending fields are NOT reset to their initial empty/zero values:
duration is still 9, title still "A", stream URL still "u", refuting the
claim that the cleared pendingRecord cannot leak into the next record. -/
theorem claim_C3_counterexample :
    (run "K" initData c3events).got_url = 0 ∧
    (run "K" initData c3events).songs ≠ [] ∧
    ¬ ((run "K" initData c3events).duration = 0 ∧
       (run "K" initData c3events).title = "" ∧
       (run "K" initData c3events).stream_url = "") ∧
    (run "K" initData c3events).duration = 9 ∧
    (run "K" initData c3events).title = "A" ∧
    (run "K" initData c3events).stream_url = "u" := by decide

/-- C3 (amended): after an object-end that fires finalization
(`got_url == 1`) the capture depth is reset to 0 and the finalized record
is pushed, but the pending duration, title and stream URL are NOT cleared:
they retain their accumulated values and can leak into the next record. -/
theorem claim_C3_amended (apikey : String) (k : Key) (u : String) (du : Int)
    (t : String) (songs : List Song) :
    handle_end_map apikey ⟨k, u, du, t, 1, songs⟩
      = ⟨k, u, du, t, 0,
         { url := u ++ "?client_id=" ++ apikey, durationMs := du,
           title := if t.isEmpty then none else some t } :: songs⟩ := by
  simp [handle_end_map, finalizedSong]

/-- C4: when a record is finalized its URL is the captured stream URL with
the credential appended verbatim — `streamUrl + "?client_id=" + credential`
— the title is attached only when non-empty, and in particular stream URL
"https://api.example.com/stream/1" with credential "XYZ" yields
"https://api.example.com/stream/1?client_id=XYZ". -/
theorem claim_C4_url_construction (apikey : String) (k : Key) (u : String)
    (du : Int) (t : String) (songs : List Song) :
    (handle_end_map apikey ⟨k, u, du, t, 1, songs⟩).songs
        = { url := u ++ "?client_id=" ++ apikey, durationMs := du,
            title := if t.isEmpty then none else some t } :: songs ∧
    (handle_end_map "XYZ"
        ⟨Key.OTHER, "https://api.example.com/stream/1", 0, "", 1, []⟩).songs
        = [{ url := "https://api.example.com/stream/1?client_id=XYZ",
             durationMs := 0, title := none }] := by
  constructor
  · simp [handle_end_map, finalizedSong]
  · decide

/-- C5 counterexample: the two-track document `c5events` finalizes two
records whose durations are [-5, -5]: the first is negative (refuting
durationMs ≥ 0) and the second object contained no duration field yet its
record's duration is -5 rather than the claimed default 0 (the accumulator
is never reset between records). -/
theorem claim_C5_counterexample :
    (run "K" initData c5events).songs.reverse.map Song.durationMs = [-5, -5] ∧
    ¬ (∀ s ∈ (run "K" initData c5events).songs, 0 ≤ s.durationMs) := by decide

/-- C5 (amended): a finalized record's durationMs is whatever value the
parse context's duration accumulator holds at finalization — the last
integer scalar consumed under a Duration classification, stored verbatim
with no sign constraint — and when the object contained no duration field
the accumulator simply keeps its previous value (0 at the start of the
parse in this model, or the value left over from an earlier record). -/
theorem claim_C5_amended (apikey : String) (k : Key) (u : String) (du : Int)
    (t : String) (g : Int) (songs : List Song) (v : Int) :
    (handle_integer v ⟨Key.DURATION, u, du, t, g, songs⟩).duration = v ∧
    (handle_end_map apikey ⟨k, u, du, t, 1, songs⟩).songs.head?
        = some { url := u ++ "?client_id=" ++ apikey, durationMs := du,
                 title := if t.isEmpty then none else some t } ∧
    (handle_end_map apikey ⟨k, u, du, t, 1, songs⟩).duration = du := by
  refine ⟨rfl, ?_, ?_⟩ <;> simp [handle_end_map, finalizedSong]

/-- C6 counterexample: after `mapKey "duration"` a first integer scalar
stores 1, and a second scalar with no intervening map-key event is NOT a
no-op — it overwrites the duration with 2 and changes the state, refuting
the claim that a classification is contextual only for the immediately
following scalar event. -/
theorem claim_C6_counterexample :
    (run "K" initData [Event.mapKey "duration", Event.integer 1]).duration = 1 ∧
    (run "K" initData
        [Event.mapKey "duration", Event.integer 1, Event.integer 2]).duration = 2 ∧
    step "K" (run "K" initData [Event.mapKey "duration", Event.integer 1])
        (Event.integer 2)
      ≠ run "K" initData [Event.mapKey "duration", Event.integer 1] := by decide

/-- C6 (amended): a field classification set by a map-key event persists
until the next map-key event rather than being consumed by the first
scalar: every scalar arriving while the classification is Duration (or
Title) updates the corresponding field — last write wins — and scalars
arriving while the classification is Other modify nothing at all. -/
theorem claim_C6_amended (apikey u : String) (du : Int) (t : String) (g : Int)
    (songs : List Song) (v1 v2 : Int) (s : String) :
    (run apikey ⟨Key.DURATION, u, du, t, g, songs⟩
        [Event.integer v1, Event.integer v2]).duration = v2 ∧
    (run apikey ⟨Key.DURATION, u, du, t, g, songs⟩
        [Event.integer v1, Event.integer v2]).key = Key.DURATION ∧
    (handle_string s ⟨Key.TITLE, u, du, t, g, songs⟩).key = Key.TITLE ∧
    run apikey ⟨Key.OTHER, u, du, t, g, songs⟩ [Event.integer v1, Event.str s]
      = ⟨Key.OTHER, u, du, t, g, songs⟩ :=
  ⟨rfl, rfl, rfl, rfl⟩

/-- C7: the field classifier performs the case-sensitive exact-start match
of the source against the fixed table ("duration", "title", "stream_url")
in order, returns the corresponding kind for a matching key and Other for
every key matching no table entry, and `handle_mapkey` has no side effect
on the parse context besides setting the current classification. -/
theorem claim_C7_field_classification (k : String) (key0 : Key) (u : String)
    (du : Int) (t : String) (g : Int) (songs : List Song) :
    handle_mapkey k ⟨key0, u, du, t, g, songs⟩ = ⟨classify k, u, du, t, g, songs⟩ ∧
    classify "duration" = Key.DURATION ∧
    classify "title" = Key.TITLE ∧
    classify "stream_url" = Key.STREAM_URL ∧
    classify "Duration" = Key.OTHER ∧
    (stringStartsWith "duration" k = true → classify k = Key.DURATION) ∧
    (stringStartsWith "duration" k = false → stringStartsWith "title" k = true →
      classify k = Key.TITLE) ∧
    (stringStartsWith "duration" k = false → stringStartsWith "title" k = false →
      stringStartsWith "stream_url" k = true → classify k = Key.STREAM_URL) ∧
    (stringStartsWith "duration" k = false → stringStartsWith "title" k = false →
      stringStartsWith "stream_url" k = false → classify k = Key.OTHER) := by
  refine ⟨rfl, by decide, by decide, by decide, by decide, ?_, ?_, ?_, ?_⟩
  · intro h1
    simp [classify, h1]
  · intro h1 h2
    simp [classify, h1, h2]
  · intro h1 h2 h3
    simp [classify, h1, h2, h3]
  · intro h1 h2 h3
    simp [classify, h1, h2, h3]

/-- C7 witness: an unrecognized key "genre" only rewrites the current
classification, to Other. -/
theorem claim_C7_witness :
    handle_mapkey "genre" ⟨Key.OTHER, "", 0, "", 0, []⟩
        = ⟨classify "genre", "", 0, "", 0, []⟩ ∧
    classify "genre" = Key.OTHER :=
  ⟨(claim_C7_field_classification "genre" Key.OTHER "" 0 "" 0 []).1,
   (claim_C7_field_classification "genre" Key.OTHER "" 0 "" 0 []).2.2.2.2.2.2.2.2
     (by decide) (by decide) (by decide)⟩

/-- C8: from a context with no pending capture, an event sequence that
contains no map key classified as the stream reference — in particular a
track object without a `stream_url` field, whatever other recognized
fields it contains — never pushes a record: the song list is unchanged
after the whole sequence (and, since the hypothesis is closed under
prefixes, after every prefix of it), the capture depth stays 0, and no
stream classification is ever in force. -/
theorem claim_C8_missing_stream_url (apikey : String) :
    ∀ (es : List Event) (d : SoundCloudJsonData), d.got_url = 0 →
      d.key ≠ Key.STREAM_URL → es.all nonCapturingEvent = true →
      (run apikey d es).songs = d.songs ∧ (run apikey d es).got_url = 0 ∧
      (run apikey d es).key ≠ Key.STREAM_URL := by
  intro es
  induction es with
  | nil => intro d h hk _; exact ⟨rfl, h, hk⟩
  | cons e es ih =>
      intro d h hk hall
      rw [List.all_cons, Bool.and_eq_true] at hall
      have hstep : (step apikey d e).got_url = 0 ∧
          (step apikey d e).key ≠ Key.STREAM_URL ∧
          (step apikey d e).songs = d.songs := by
        cases e with
        | integer v =>
            have hkeep : step apikey d (Event.integer v) = d ∨
                step apikey d (Event.integer v) = { d with duration := v } := by
              cases hkey : d.key <;> simp [step, handle_integer, hkey]
            rcases hkeep with he | he <;> simp [he, h, hk]
        | str s =>
            have hkeep : step apikey d (Event.str s) = d ∨
                step apikey d (Event.str s) = { d with title := s } := by
              cases hkey : d.key with
              | DURATION => simp [step, handle_string, hkey]
              | TITLE => simp [step, handle_string, hkey]
              | STREAM_URL => exact absurd hkey hk
              | OTHER => simp [step, handle_string, hkey]
            rcases hkeep with he | he <;> simp [he, h, hk]
        | mapKey k =>
            have hnc : classify k ≠ Key.STREAM_URL := by
              have hm := hall.1
              simp only [nonCapturingEvent] at hm
              cases hck : classify k <;> simp [hck] at hm ⊢
            simp [step, handle_mapkey, h, hnc]
        | startMap => simp [step, handle_start_map, h, hk]
        | endMap => simp [step, handle_end_map, h, hk]
      have hrun : run apikey d (e :: es) = run apikey (step apikey d e) es := rfl
      rw [hrun]
      obtain ⟨a, b, c⟩ := ih (step apikey d e) hstep.1 hstep.2.1 hall.2
      exact ⟨by rw [a, hstep.2.2], b, c⟩

/-- C8 witness: a track object carrying a title and a duration but no
stream_url field produces no record. -/
theorem claim_C8_witness :
    (run "K" initData
        [Event.startMap, Event.mapKey "title", Event.str "T",
         Event.mapKey "duration", Event.integer 3, Event.endMap]).songs
      = initData.songs ∧
    (run "K" initData
        [Event.startMap, Event.mapKey "title", Event.str "T",
         Event.mapKey "duration", Event.integer 3, Event.endMap]).got_url = 0 ∧
    (run "K" initData
        [Event.startMap, Event.mapKey "title", Event.str "T",
         Event.mapKey "duration", Event.integer 3, Event.endMap]).key
      ≠ Key.STREAM_URL :=
  claim_C8_missing_stream_url "K"
    [Event.startMap, Event.mapKey "title", Event.str "T",
     Event.mapKey "duration", Event.integer 3, Event.endMap]
    initData rfl (by decide) (by decide)

/-- C9: a soundcloud:// URI whose remainder begins with none of the
recognized resource-kind prefixes "track/", "playlist/", "user/",
"search/", "url/" makes `soundcloud_open_uri` return the null result, and
no parse is attempted: the outcome is `none` for every possible event
sequence the tokenizer could have delivered. -/
theorem claim_C9_unknown_resource_kind (apikey rest : String) (events : List Event)
    (h1 : stringStartsWith rest "track/" = false)
    (h2 : stringStartsWith rest "playlist/" = false)
    (h3 : stringStartsWith rest "user/" = false)
    (h4 : stringStartsWith rest "search/" = false)
    (h5 : stringStartsWith rest "url/" = false) :
    soundcloud_open_uri apikey rest events = none := by
  simp [soundcloud_open_uri, h1, h2, h3, h4, h5]

/-- C9 witness: soundcloud://album/1 is rejected with no parse attempt. -/
theorem claim_C9_witness :
    soundcloud_open_uri "K" "album/1" [Event.startMap, Event.endMap] = none :=
  claim_C9_unknown_resource_kind "K" "album/1" [Event.startMap, Event.endMap]
    (by decide) (by decide) (by decide) (by decide) (by decide)

/-- C10: the initial parse context has capture depth 0, every event
handler preserves capture depth ≥ 0, and an object-end arriving at capture
depth 0 leaves the entire parse context (accumulator included) unchanged
instead of driving the counter negative. -/
theorem claim_C10_depth_invariant :
    initData.got_url = 0 ∧
    (∀ (apikey : String) (d : SoundCloudJsonData) (e : Event),
      0 ≤ d.got_url → 0 ≤ (step apikey d e).got_url) ∧
    (∀ (apikey : String) (d : SoundCloudJsonData),
      d.got_url = 0 → handle_end_map apikey d = d) := by
  refine ⟨rfl, ?_, ?_⟩
  · intro apikey d e h
    cases e with
    | integer v => cases hkey : d.key <;> simpa [step, handle_integer, hkey] using h
    | str s => cases hkey : d.key <;> simp [step, handle_string, hkey] <;> omega
    | mapKey k => simpa [step, handle_mapkey] using h
    | startMap =>
        by_cases hg : d.got_url > 0 <;> simp [step, handle_start_map, hg] <;> omega
    | endMap =>
        by_cases h1 : d.got_url > 1
        · simp [step, handle_end_map, h1]
          omega
        · by_cases h0 : d.got_url = 0 <;> simp [step, handle_end_map, h1, h0]
  · intro apikey d h
    simp [handle_end_map, h]

/-- C10 witness: one object-end on the initial context keeps the depth at
0 and changes nothing. -/
theorem claim_C10_witness :
    0 ≤ (step "K" initData Event.endMap).got_url ∧
    handle_end_map "K" initData = initData :=
  ⟨claim_C10_depth_invariant.2.1 "K" initData Event.endMap (by decide),
   claim_C10_depth_invariant.2.2 "K" initData rfl⟩

end SoundCloud
